import Mathlib

/-!
# Read9ja marketplace — order lifecycle and cart-to-order pipeline

Shallow embedding of the cart / product / order services of the repository
(`src/services/firebase/productService.ts`, `analyticsService.ts` (CartService),
`orderService.ts`) together with the pricing formulas of
`src/screens/buyer/CartScreen.tsx`.

Modelling conventions:
* The Firestore document store is a record of association lists
  (products, carts, orders) plus the append-only tracking collection.
* Money is modelled with `ℚ` (JS numbers at the magnitudes involved);
  stock is `Int` (the source's blind `increment` can drive it negative);
  quantities are `Nat`.
* `updateDoc` on a missing document fails; `addDoc` allocates a fresh
  numeric id from a counter; `serverTimestamp` fields, image lists and
  other claim-irrelevant fields (`addedAt`, `deliveryInfo`,
  `paymentMethod`, delivery timestamps) are omitted.
* `Math.random`-based code generation is modelled by a counter `nextRand`
  threaded through the store.
* Thrown `Error` objects are modelled as `Except String` carrying the
  exact message string of the source; every operation returns the store
  state paired with the result, so that state on failure is explicit.
* Notification dispatch never touches the modelled state and its failures
  are swallowed by the source, so it is modelled as a no-op.
-/

/-- Product status, `'active' | 'inactive' | 'draft'` in `types`. -/
inductive ProductStatus where
  | active
  | inactive
  | draft
deriving DecidableEq, Repr

/-- Order status union type from `types`. -/
inductive OrderStatus where
  | pending
  | payment_verified
  | rider_assigned
  | picked_up
  | in_transit
  | delivered
  | cancelled
  | refunded
deriving DecidableEq, Repr

/-- Product record (claim-relevant fields of `interface Product`). -/
structure Product where
  sellerId : String
  title : String
  price : ℚ
  stock : Int
  status : ProductStatus
deriving DecidableEq, Repr

/-- Cart line item: product id plus a denormalized snapshot of the whole
product captured at add-time (`interface CartItem`). -/
structure CartItem where
  productId : String
  product : Product
  quantity : Nat
deriving DecidableEq, Repr

/-- A buyer's cart document (`interface Cart`). -/
structure Cart where
  userId : String
  items : List CartItem
  totalItems : Nat
  totalAmount : ℚ
deriving DecidableEq, Repr

/-- Rider information recorded on `rider_assigned` transitions. -/
structure RiderInfo where
  riderId : String
  name : String
  phoneNumber : String
  rating : ℚ
deriving DecidableEq, Repr

/-- Order document (claim-relevant fields of `interface Order`).  Note the
schema holds a single `productId` and single product snapshot even when the
order was created from a multi-item seller partition. -/
structure Order where
  orderNumber : String
  buyerId : String
  sellerId : String
  productId : String
  productName : String
  productPrice : ℚ
  quantity : Nat
  totalAmount : ℚ
  status : OrderStatus
  verificationCode : String
  riderId : Option String
  riderInfo : Option RiderInfo
deriving DecidableEq, Repr

/-- One entry of the append-only `order_tracking` collection. -/
structure Tracking where
  orderId : Nat
  status : OrderStatus
  message : String
  updatedBy : String
deriving DecidableEq, Repr

/-- The Firestore state visible to the embedded services. -/
structure DB where
  products : List (String × Product)
  carts : List (String × Cart)
  orders : List (Nat × Order)
  tracking : List Tracking
  nextOrderId : Nat
  nextRand : Nat
deriving DecidableEq, Repr

/-- Association-list lookup (Firestore `getDoc`). -/
def lookupA {κ α : Type} [DecidableEq κ] (l : List (κ × α)) (k : κ) : Option α :=
  match l with
  | [] => none
  | (k', v) :: t => if k' = k then some v else lookupA t k

/-- Association-list upsert (Firestore `setDoc` / successful `updateDoc`). -/
def setA {κ α : Type} [DecidableEq κ] (l : List (κ × α)) (k : κ) (v : α) : List (κ × α) :=
  match l with
  | [] => [(k, v)]
  | (k', v') :: t => if k' = k then (k, v) :: t else (k', v') :: setA t k v

theorem lookupA_setA_self {κ α : Type} [DecidableEq κ] (l : List (κ × α)) (k : κ) (v : α) :
    lookupA (setA l k v) k = some v := by
  induction l with
  | nil => simp [setA, lookupA]
  | cons h t ih =>
    obtain ⟨k', v'⟩ := h
    by_cases hk : k' = k
    · simp [setA, lookupA, hk]
    · simp [setA, lookupA, hk, ih]

theorem lookupA_setA_ne {κ α : Type} [DecidableEq κ] (l : List (κ × α)) (k k' : κ) (v : α)
    (h : k ≠ k') : lookupA (setA l k v) k' = lookupA l k' := by
  induction l with
  | nil => simp [setA, lookupA, h]
  | cons hd t ih =>
    obtain ⟨k₀, v₀⟩ := hd
    by_cases hk : k₀ = k
    · subst hk
      simp [setA, lookupA, h]
    · simp only [setA, if_neg hk, lookupA]
      by_cases hk' : k₀ = k'
      · simp [hk']
      · simp [hk', ih]

theorem isSome_lookupA_setA {κ α : Type} [DecidableEq κ] (l : List (κ × α)) (k k' : κ) (v : α)
    (h : (lookupA l k).isSome) :
    ((lookupA (setA l k' v) k).isSome) := by
  by_cases hk : k' = k
  · subst hk; simp [lookupA_setA_self]
  · rw [lookupA_setA_ne l k' k v hk]; exact h

/-! ## ProductService -/

/-- `ProductService.getProduct`: plain read, `null` when absent. -/
def getProduct (s : DB) (productId : String) : Option Product :=
  lookupA s.products productId

/-- The `operation` argument of `ProductService.updateStock`. -/
inductive StockOp where
  | add
  | subtract
deriving DecidableEq, Repr

/-- `ProductService.updateStock`: a bare Firestore `increment` of
`+quantity` or `-quantity` on the product document.  There is no stock
check of any kind; the only failure is `updateDoc` on a missing document,
caught and rethrown as `Failed to update stock`. -/
def updateStock (s : DB) (productId : String) (quantity : Nat) (operation : StockOp) :
    DB × Except String Unit :=
  match lookupA s.products productId with
  | none => (s, .error "Failed to update stock")
  | some p =>
    let increment_value : Int := match operation with
      | .add => (quantity : Int)
      | .subtract => -(quantity : Int)
    ({ s with products := setA s.products productId { p with stock := p.stock + increment_value } },
     .ok ())

/-! ## CartService (defined in `analyticsService.ts`) -/

/-- The empty cart written by `CartService.getCart` when no cart document
exists for the user. -/
def emptyCart (userId : String) : Cart :=
  { userId := userId, items := [], totalItems := 0, totalAmount := 0 }

/-- `CartService.getCart`: returns the stored cart; when the document does
not exist it first creates (writes) an empty cart — a mutation performed on
a read path. -/
def getCart (s : DB) (userId : String) : DB × Cart :=
  match lookupA s.carts userId with
  | some c => (s, c)
  | none =>
    ({ s with carts := setA s.carts userId (emptyCart userId) }, emptyCart userId)

/-- Sum of quantities of a list of cart items. -/
def sumQty : List CartItem → Nat
  | [] => 0
  | it :: t => it.quantity + sumQty t

/-- Sum of snapshot price times quantity of a list of cart items. -/
def sumAmt : List CartItem → ℚ
  | [] => 0
  | it :: t => it.product.price * (it.quantity : ℚ) + sumAmt t

/-- `CartService.calculateCartTotals`: the two `reduce` folds of the source. -/
def calculateCartTotals (items : List CartItem) : Nat × ℚ :=
  (items.foldl (fun sum it => sum + it.quantity) 0,
   items.foldl (fun sum it => sum + it.product.price * (it.quantity : ℚ)) 0)

theorem foldl_qty_eq (items : List CartItem) (n : Nat) :
    items.foldl (fun sum it => sum + it.quantity) n = n + sumQty items := by
  induction items generalizing n with
  | nil => simp [sumQty, List.foldl]
  | cons it t ih => simp [List.foldl, sumQty, ih]; ring

theorem foldl_amt_eq (items : List CartItem) (q : ℚ) :
    items.foldl (fun sum it => sum + it.product.price * (it.quantity : ℚ)) q = q + sumAmt items := by
  induction items generalizing q with
  | nil => simp [sumAmt, List.foldl]
  | cons it t ih => simp [List.foldl, sumAmt, ih]; ring

theorem calculateCartTotals_eq (items : List CartItem) :
    calculateCartTotals items = (sumQty items, sumAmt items) := by
  simp [calculateCartTotals, foldl_qty_eq, foldl_amt_eq]

/-- Replace the quantity of the first item whose `productId` matches
(the source's `findIndex` followed by an index-guarded `map`). -/
def updateFirstQty (items : List CartItem) (productId : String) (newQuantity : Nat) :
    List CartItem :=
  match items with
  | [] => []
  | it :: t =>
    if it.productId = productId then { it with quantity := newQuantity } :: t
    else it :: updateFirstQty t productId newQuantity

/-- `CartService.addToCart`.  Faithful to the source: the live product is
loaded and only its *stock* is checked (`product.stock < quantity`); the
product's `status` is never examined.  An existing line is merged
(`existing.quantity + quantity`, re-checked against live stock); otherwise a
new line holding a fresh snapshot of the live product is appended.  Totals
are recomputed from the item list and the cart document rewritten. -/
def addToCart (s : DB) (userId productId : String) (quantity : Nat) :
    DB × Except String Unit :=
  match getProduct s productId with
  | none => (s, .error "Product not found")
  | some product =>
    if product.stock < (quantity : Int) then (s, .error "Insufficient stock available")
    else
      let sc := getCart s userId
      let s1 := sc.1
      let cart := sc.2
      match cart.items.find? (fun it => it.productId = productId) with
      | some existingItem =>
        let newQuantity := existingItem.quantity + quantity
        if (newQuantity : Int) > product.stock then
          (s1, .error "Cannot add more items than available stock")
        else
          let updatedItems := updateFirstQty cart.items productId newQuantity
          let totals := calculateCartTotals updatedItems
          let newCart : Cart := { userId := cart.userId, items := updatedItems,
                                  totalItems := totals.1, totalAmount := totals.2 }
          ({ s1 with carts := setA s1.carts userId newCart }, .ok ())
      | none =>
        let newItem : CartItem := { productId := productId, product := product, quantity := quantity }
        let updatedItems := cart.items ++ [newItem]
        let totals := calculateCartTotals updatedItems
        let newCart : Cart := { userId := cart.userId, items := updatedItems,
                                totalItems := totals.1, totalAmount := totals.2 }
        ({ s1 with carts := setA s1.carts userId newCart }, .ok ())

/-- `CartService.removeFromCart`: filters the line out (idempotent) and
rewrites the cart with recomputed totals. -/
def removeFromCart (s : DB) (userId productId : String) : DB × Except String Unit :=
  let sc := getCart s userId
  let s1 := sc.1
  let cart := sc.2
  let updatedItems := cart.items.filter (fun it => ¬ it.productId = productId)
  let totals := calculateCartTotals updatedItems
  let newCart : Cart := { userId := cart.userId, items := updatedItems,
                          totalItems := totals.1, totalAmount := totals.2 }
  ({ s1 with carts := setA s1.carts userId newCart }, .ok ())

/-- `CartService.updateCartItemQuantity`: negative quantity is rejected,
zero delegates to `removeFromCart`, otherwise the live product is loaded
and the requested quantity checked against live stock before every matching
line is rewritten and totals recomputed. -/
def updateCartItemQuantity (s : DB) (userId productId : String) (quantity : Int) :
    DB × Except String Unit :=
  if quantity < 0 then (s, .error "Quantity cannot be negative")
  else if quantity = 0 then removeFromCart s userId productId
  else
    match getProduct s productId with
    | none => (s, .error "Product not found")
    | some product =>
      if quantity > product.stock then (s, .error "Quantity exceeds available stock")
      else
        let sc := getCart s userId
        let s1 := sc.1
        let cart := sc.2
        let updatedItems := cart.items.map (fun it =>
          if it.productId = productId then { it with quantity := quantity.toNat } else it)
        let totals := calculateCartTotals updatedItems
        let newCart : Cart := { userId := cart.userId, items := updatedItems,
                                totalItems := totals.1, totalAmount := totals.2 }
        ({ s1 with carts := setA s1.carts userId newCart }, .ok ())

/-- `CartService.clearCart`: a bare `updateDoc` that empties the stored
cart; it fails (`Failed to clear cart`) when no cart document exists. -/
def clearCart (s : DB) (userId : String) : DB × Except String Unit :=
  match lookupA s.carts userId with
  | none => (s, .error "Failed to clear cart")
  | some c =>
    let cleared : Cart := { c with items := [], totalItems := 0, totalAmount := 0 }
    ({ s with carts := setA s.carts userId cleared }, .ok ())

/-- One step of the `syncCartWithLatestData` loop: given the current store
and one stored cart item, either drop the line (product gone / not active /
clamped to zero) or keep it refreshed with the live product and a quantity
clamped to live stock.  Returns the kept item (if any) and whether the loop
flagged a change. -/
def syncItemStep (s : DB) (cartItem : CartItem) : Option CartItem × Bool :=
  match getProduct s cartItem.productId with
  | none => (none, true)
  | some latestProduct =>
    if latestProduct.status ≠ ProductStatus.active then (none, true)
    else
      let adjustedQuantity : Int := min (cartItem.quantity : Int) latestProduct.stock
      let changed := adjustedQuantity ≠ (cartItem.quantity : Int) ∨ latestProduct ≠ cartItem.product
      if adjustedQuantity > 0 then
        (some { cartItem with product := latestProduct, quantity := adjustedQuantity.toNat },
         decide changed)
      else (none, true)

/-- The `for` loop of `syncCartWithLatestData`: accumulates the kept items
and the `hasChanges` flag. -/
def syncItems (s : DB) : List CartItem → List CartItem × Bool
  | [] => ([], false)
  | cartItem :: rest =>
    let step := syncItemStep s cartItem
    let r := syncItems s rest
    (match step.1 with
     | some it => it :: r.1
     | none => r.1,
     step.2 || r.2)

/-- `CartService.syncCartWithLatestData`: reconciles stored snapshots with
live product data; writes the cart (with recomputed totals) only when the
loop flagged a change. -/
def syncCartWithLatestData (s : DB) (userId : String) : DB × Except String Unit :=
  let sc := getCart s userId
  let s1 := sc.1
  let cart := sc.2
  let sync := syncItems s1 cart.items
  if sync.2 then
    let totals := calculateCartTotals sync.1
    let newCart : Cart := { userId := cart.userId, items := sync.1,
                            totalItems := totals.1, totalAmount := totals.2 }
    ({ s1 with carts := setA s1.carts userId newCart }, .ok ())
  else (s1, .ok ())

/-- Result record of `CartService.validateCartForCheckout`. -/
structure ValidationResult where
  isValid : Bool
  errors : List String
  unavailableItems : List String
deriving DecidableEq, Repr

/-- `Math.abs` on rationals, written so that kernel reduction computes it. -/
def ratAbs (x : ℚ) : ℚ := if x < 0 then -x else x

theorem ratAbs_eq_abs (x : ℚ) : ratAbs x = |x| := by
  unfold ratAbs
  by_cases h : x < 0
  · rw [if_pos h, abs_of_neg h]
  · rw [if_neg h, abs_of_nonneg (le_of_not_lt h)]

/-- The per-item loop of `validateCartForCheckout`: purely reads products
and accumulates error strings and unavailable product ids. -/
def validateItems (s : DB) : List CartItem → List String × List String
  | [] => ([], [])
  | cartItem :: rest =>
    let r := validateItems s rest
    match getProduct s cartItem.productId with
    | none =>
      (("Product \"" ++ cartItem.product.title ++ "\" is no longer available") :: r.1,
       cartItem.productId :: r.2)
    | some product =>
      if product.status ≠ ProductStatus.active then
        (("Product \"" ++ product.title ++ "\" is currently unavailable") :: r.1,
         cartItem.productId :: r.2)
      else if product.stock < (cartItem.quantity : Int) then
        (("Only " ++ toString product.stock ++ " units of \"" ++ product.title ++
          "\" available, but " ++ toString cartItem.quantity ++ " requested") :: r.1, r.2)
      else if 1/100 < ratAbs (product.price - cartItem.product.price) then
        (("Price of \"" ++ product.title ++ "\" has changed") :: r.1, r.2)
      else r

/-- `CartService.validateCartForCheckout`: loads the cart (via `getCart`,
which lazily creates a cart document when none exists) and then only reads
product records; `isValid` iff no error was collected. -/
def validateCartForCheckout (s : DB) (userId : String) : DB × ValidationResult :=
  let sc := getCart s userId
  let s1 := sc.1
  let cart := sc.2
  if cart.items.isEmpty then
    (s1, { isValid := false, errors := ["Cart is empty"], unavailableItems := [] })
  else
    let r := validateItems s1 cart.items
    (s1, { isValid := r.1.isEmpty, errors := r.1, unavailableItems := r.2 })

/-- Summary record of `CartService.getCartSummary`. -/
structure CartSummary where
  subtotal : ℚ
  tax : ℚ
  deliveryFee : ℚ
  total : ℚ
  itemCount : Nat
deriving DecidableEq, Repr

/-- `CartService.getCartSummary`: tax is 5% of the cart subtotal and the
delivery fee is waived strictly above 10000. -/
def getCartSummary (s : DB) (userId : String) : DB × CartSummary :=
  let sc := getCart s userId
  let cart := sc.2
  let subtotal := cart.totalAmount
  let tax := subtotal * (5/100)
  let deliveryFee : ℚ := if subtotal > 10000 then 0 else 1000
  let total := subtotal + tax + deliveryFee
  (sc.1, { subtotal := subtotal, tax := tax, deliveryFee := deliveryFee,
           total := total, itemCount := cart.totalItems })

/-- The inline pricing block of `renderCartSummary` in
`CartScreen.tsx` (cart display path), as a function of the subtotal;
returns `(tax, deliveryFee, total)`. -/
def renderCartSummaryPricing (subtotal : ℚ) : ℚ × ℚ × ℚ :=
  let tax := subtotal * (5/100)
  let deliveryFee : ℚ := if subtotal > 10000 then 0 else 1000
  let total := subtotal + tax + deliveryFee
  (tax, deliveryFee, total)

/-- The inline pricing block of `calculateOrderSummary` in
`CartScreen.tsx` (checkout / order-creation path), as a function of the
subtotal; returns `(tax, deliveryFee, total)`. -/
def calculateOrderSummaryPricing (subtotal : ℚ) : ℚ × ℚ × ℚ :=
  let tax := subtotal * (5/100)
  let deliveryFee : ℚ := if subtotal > 10000 then 0 else 1000
  let total := subtotal + tax + deliveryFee
  (tax, deliveryFee, total)

/-- Modelled from the spec: `PricingPolicy.computeTotals(subtotal)` with
`tax = subtotal * 0.05` and `deliveryFee = 0 if subtotal > 10000 else
1000`; stated from the spec's words for the refinement comparison of the
pricing paths. -/
def computeTotals (subtotal : ℚ) : ℚ × ℚ × ℚ :=
  (subtotal * (5/100),
   if subtotal > 10000 then 0 else 1000,
   subtotal + subtotal * (5/100) + (if subtotal > 10000 then 0 else 1000))

/-! ## OrderService -/

/-- `OrderService.generateOrderCode`: `R9J` plus time/randomness, modelled
from the randomness counter. -/
def generateOrderCode (rand : Nat) : String :=
  "R9J" ++ toString rand

/-- `OrderService.generateVerificationCode`: six random digits, modelled
from the randomness counter. -/
def generateVerificationCode (rand : Nat) : String :=
  toString rand

/-- `OrderService.getDefaultStatusMessage`. -/
def getDefaultStatusMessage : OrderStatus → String
  | .pending => "Order placed and waiting for payment verification"
  | .payment_verified => "Payment verified, preparing order"
  | .rider_assigned => "Rider assigned for pickup"
  | .picked_up => "Order picked up by rider"
  | .in_transit => "Order is on the way"
  | .delivered => "Order delivered successfully"
  | .cancelled => "Order has been cancelled"
  | .refunded => "Order refunded"

/-- `OrderService.addTrackingEntry`: pure append to the tracking
collection. -/
def addTrackingEntry (s : DB) (orderId : Nat) (status : OrderStatus) (message : String)
    (updatedBy : String) : DB :=
  { s with tracking := s.tracking ++
      [{ orderId := orderId, status := status, message := message, updatedBy := updatedBy }] }

/-- `OrderService.updateOrderStatus`: writes the new status (recording
rider info when entering `rider_assigned`) and appends a tracking entry.
The source performs no legality check whatsoever on the
`(current status, newStatus)` pair; its only failure is the `updateDoc` on
a missing order document, caught and rethrown as
`Failed to update order status`.  Notification dispatch is a no-op on the
modelled state. -/
def updateOrderStatus (s : DB) (orderId : Nat) (newStatus : OrderStatus) (updatedBy : String)
    (message : Option String) (riderInfo : Option RiderInfo) : DB × Except String Unit :=
  match lookupA s.orders orderId with
  | none => (s, .error "Failed to update order status")
  | some o =>
    let o1 := { o with status := newStatus }
    let o2 := match newStatus, riderInfo with
      | .rider_assigned, some ri => { o1 with riderId := some ri.riderId, riderInfo := some ri }
      | _, _ => o1
    let s1 := { s with orders := setA s.orders orderId o2 }
    let s2 := addTrackingEntry s1 orderId newStatus
      (message.getD (getDefaultStatusMessage newStatus)) updatedBy
    (s2, .ok ())

/-- `OrderService.verifyOrderDelivery`: checks existence, then the
verification code, then that the status is exactly `in_transit`; only then
does it delegate to `updateOrderStatus` to move the order to `delivered`. -/
def verifyOrderDelivery (s : DB) (orderId : Nat) (verificationCode : String)
    (verifiedBy : String) : DB × Except String Bool :=
  match lookupA s.orders orderId with
  | none => (s, .error "Order not found")
  | some o =>
    if o.verificationCode ≠ verificationCode then (s, .error "Invalid verification code")
    else if o.status ≠ OrderStatus.in_transit then
      (s, .error "Order is not ready for delivery verification")
    else
      let r := updateOrderStatus s orderId .delivered verifiedBy
        (some "Order delivered and verified") none
      match r.2 with
      | .ok _ => (r.1, .ok true)
      | .error e => (r.1, .error e)

/-- `OrderService.cancelOrder`: cancellable only from `pending`,
`payment_verified` or `rider_assigned`; on success sets the status to
`cancelled`, adds back the order's (aggregate) `quantity` to the single
`order.productId`, and appends a tracking entry.  When the stock write
fails (missing product) the transaction aborts with the state unchanged. -/
def cancelOrder (s : DB) (orderId : Nat) (cancelledBy : String) (reason : String) :
    DB × Except String Unit :=
  match lookupA s.orders orderId with
  | none => (s, .error "Order not found")
  | some o =>
    if o.status ∉ ([.pending, .payment_verified, .rider_assigned] : List OrderStatus) then
      (s, .error "Order cannot be cancelled at this stage")
    else
      match lookupA s.products o.productId with
      | none => (s, .error "Failed to update stock")
      | some p =>
        let cancelledOrder : Order := { o with status := .cancelled }
        let restoredProduct : Product := { p with stock := p.stock + (o.quantity : Int) }
        let s1 := { s with orders := setA s.orders orderId cancelledOrder }
        let s2 := { s1 with products := setA s1.products o.productId restoredProduct }
        let s3 := addTrackingEntry s2 orderId .cancelled
          ("Order cancelled: " ++ reason) cancelledBy
        (s3, .ok ())

/-- The stock-decrement loop of `createSingleOrder`: one
`ProductService.updateStock(productId, quantity, subtract)` per item. -/
def subtractStocks (s : DB) : List CartItem → DB × Except String Unit
  | [] => (s, .ok ())
  | item :: rest =>
    let r := updateStock s item.productId item.quantity .subtract
    match r.2 with
    | .error e => (r.1, .error e)
    | .ok _ => subtractStocks r.1 rest

/-- `OrderService.createSingleOrder`: computes the partition subtotal and
aggregate quantity, writes a single order document in `pending` recording
only the *first* item's product id and snapshot, decrements stock for every
item of the partition, and appends the initial tracking entry.  Returns the
new order id. -/
def createSingleOrder (s : DB) (buyerId sellerId : String) (items : List CartItem) :
    DB × Except String Nat :=
  match items with
  | [] => (s, .error "Cart is empty")
  | firstItem :: _ =>
    let subtotal := sumAmt items
    let quantity := sumQty items
    let orderNumber := generateOrderCode s.nextRand
    let verificationCode := generateVerificationCode (s.nextRand + 1)
    let orderData : Order :=
      { orderNumber := orderNumber, buyerId := buyerId, sellerId := sellerId,
        productId := firstItem.productId, productName := firstItem.product.title,
        productPrice := firstItem.product.price, quantity := quantity,
        totalAmount := subtotal, status := .pending,
        verificationCode := verificationCode, riderId := none, riderInfo := none }
    let orderId := s.nextOrderId
    let s1 := { s with orders := s.orders ++ [(orderId, orderData)],
                       nextOrderId := s.nextOrderId + 1, nextRand := s.nextRand + 2 }
    let r := subtractStocks s1 items
    match r.2 with
    | .error e => (r.1, .error e)
    | .ok _ =>
      let s2 := addTrackingEntry r.1 orderId .pending "Order placed successfully" buyerId
      (s2, .ok orderId)

/-- `OrderService.groupCartItemsBySeller`: one insertion-ordered group per
distinct `sellerId` of the item snapshots. -/
def addToGroup (groups : List (String × List CartItem)) (sellerId : String) (item : CartItem) :
    List (String × List CartItem) :=
  match groups with
  | [] => [(sellerId, [item])]
  | (k, l) :: t =>
    if k = sellerId then (k, l ++ [item]) :: t
    else (k, l) :: addToGroup t sellerId item

/-- The `Map`-building loop of `groupCartItemsBySeller`. -/
def groupCartItemsBySeller (items : List CartItem) : List (String × List CartItem) :=
  items.foldl (fun groups item => addToGroup groups item.product.sellerId item) []

/-- The per-seller order creation loop of `createOrderFromCart`. -/
def createOrdersLoop (s : DB) (buyerId : String) :
    List (String × List CartItem) → DB × Except String (List Nat)
  | [] => (s, .ok [])
  | (sellerId, items) :: rest =>
    let r := createSingleOrder s buyerId sellerId items
    match r.2 with
    | .error e => (r.1, .error e)
    | .ok orderId =>
      let r2 := createOrdersLoop r.1 buyerId rest
      match r2.2 with
      | .error e => (r2.1, .error e)
      | .ok orderIds => (r2.1, .ok (orderId :: orderIds))

/-- The part of `createOrderFromCart` that runs after the cart read and
the checkout validation (`cart` and `v` are the values those two reads
returned).  Each `await` of the source is a scheduling point, so in a
concurrent execution another request's steps may run between the
validation reads and this commit phase. -/
def checkoutCommitPhase (s : DB) (userId : String) (cart : Cart) (v : ValidationResult) :
    DB × Except String (List Nat) :=
  if ¬ v.isValid then (s, .error (String.intercalate ", " v.errors))
  else if cart.items.isEmpty then (s, .error "Cart is empty")
  else
    let r := createOrdersLoop s userId (groupCartItemsBySeller cart.items)
    match r.2 with
    | .error e => (r.1, .error e)
    | .ok orderIds =>
      let rc := clearCart r.1 userId
      match rc.2 with
      | .error e => (rc.1, .error e)
      | .ok _ => (rc.1, .ok orderIds)

/-- `OrderService.createOrderFromCart`: reads the cart, re-validates it
(failing fast with the joined error strings), splits the items by seller,
creates one order per seller partition, and finally clears the cart. -/
def createOrderFromCart (s : DB) (userId : String) : DB × Except String (List Nat) :=
  let sc := getCart s userId
  let sv := validateCartForCheckout sc.1 userId
  checkoutCommitPhase sv.1 userId sc.2 sv.2

/-- `createOrderFromCart` is literally its two read steps followed by the
commit phase. -/
theorem createOrderFromCart_phases (s : DB) (userId : String) :
    createOrderFromCart s userId =
      checkoutCommitPhase (validateCartForCheckout (getCart s userId).1 userId).1 userId
        (getCart s userId).2 (validateCartForCheckout (getCart s userId).1 userId).2 :=
  rfl

/-! ## The spec's legal transition table

The source contains no transition table; this definition follows the
spec's words and is used only to state the transition-legality claim
against the behaviour of `updateOrderStatus`. -/

/-- Modelled from the spec: the legal transition table of §4.3
(`pending → payment_verified|cancelled`, `payment_verified →
rider_assigned|cancelled`, `rider_assigned → picked_up|cancelled`,
`picked_up → in_transit`, `in_transit → delivered`; `delivered`,
`cancelled`, `refunded` terminal). -/
def specLegalTransition : OrderStatus → OrderStatus → Bool
  | .pending, .payment_verified => true
  | .pending, .cancelled => true
  | .payment_verified, .rider_assigned => true
  | .payment_verified, .cancelled => true
  | .rider_assigned, .picked_up => true
  | .rider_assigned, .cancelled => true
  | .picked_up, .in_transit => true
  | .in_transit, .delivered => true
  | _, _ => false

/-! ## Fixtures: concrete stores used by counterexamples and witnesses -/

/-- A delivered order, used to probe the terminal states. -/
def orderDelivered : Order :=
  { orderNumber := "R9J0", buyerId := "B", sellerId := "S1", productId := "P1",
    productName := "Widget", productPrice := 100, quantity := 1, totalAmount := 100,
    status := .delivered, verificationCode := "123456", riderId := none, riderInfo := none }

/-- Store holding a single delivered order. -/
def dbDelivered : DB :=
  { products := [], carts := [], orders := [(0, orderDelivered)], tracking := [],
    nextOrderId := 1, nextRand := 0 }

/-- Claim C1 (counterexample): `delivered → pending` is not in the spec's
legal table, yet `updateOrderStatus` accepts it, rewrites the status and
appends a tracking entry — it raises no `IllegalTransition` and the order
and tracking log both change. -/
theorem updateOrderStatus_illegal_pair_accepted :
    specLegalTransition .delivered .pending = false ∧
    (updateOrderStatus dbDelivered 0 .pending "admin" none none).2 = .ok () ∧
    (lookupA (updateOrderStatus dbDelivered 0 .pending "admin" none none).1.orders 0).map
      Order.status = some .pending ∧
    (updateOrderStatus dbDelivered 0 .pending "admin" none none).1.tracking =
      dbDelivered.tracking ++
        [{ orderId := 0, status := .pending,
           message := "Order placed and waiting for payment verification",
           updatedBy := "admin" }] := by
  refine ⟨rfl, rfl, ?_, rfl⟩
  decide

/-- Claim C1 (amended): `OrderService.updateOrderStatus` performs no
legality check at all — for every pair of statuses, called on an existing
order it succeeds, overwrites the status with `newStatus`, and appends one
tracking entry; it never raises `IllegalTransition`. -/
theorem updateOrderStatus_no_legality_check (s : DB) (orderId : Nat) (newStatus : OrderStatus)
    (updatedBy : String) (message : Option String) (riderInfo : Option RiderInfo) (o : Order)
    (h : lookupA s.orders orderId = some o) :
    (updateOrderStatus s orderId newStatus updatedBy message riderInfo).2 = .ok () ∧
    (lookupA (updateOrderStatus s orderId newStatus updatedBy message riderInfo).1.orders
      orderId).map Order.status = some newStatus ∧
    (updateOrderStatus s orderId newStatus updatedBy message riderInfo).1.tracking =
      s.tracking ++
        [{ orderId := orderId, status := newStatus,
           message := message.getD (getDefaultStatusMessage newStatus),
           updatedBy := updatedBy }] := by
  unfold updateOrderStatus
  rw [h]
  refine ⟨rfl, ?_, rfl⟩
  simp only [addTrackingEntry, lookupA_setA_self, Option.map_some]
  cases newStatus <;> cases riderInfo <;> rfl

/-- Witness for `updateOrderStatus_no_legality_check` at a concrete store
and the illegal pair `delivered → payment_verified`. -/
theorem updateOrderStatus_no_legality_check_witness :
    (updateOrderStatus dbDelivered 0 .payment_verified "u" none none).2 = .ok () ∧
    (lookupA (updateOrderStatus dbDelivered 0 .payment_verified "u" none none).1.orders 0).map
      Order.status = some .payment_verified ∧
    (updateOrderStatus dbDelivered 0 .payment_verified "u" none none).1.tracking =
      dbDelivered.tracking ++
        [{ orderId := 0, status := .payment_verified,
           message := "Payment verified, preparing order", updatedBy := "u" }] :=
  updateOrderStatus_no_legality_check dbDelivered 0 .payment_verified "u" none none
    orderDelivered rfl

/-! ## C2: stock subtraction -/

/-- A product with a single unit in stock. -/
def prodOneUnit : Product :=
  { sellerId := "S1", title := "Widget", price := 100, stock := 1, status := .active }

/-- Store holding just `prodOneUnit` under id `P1`. -/
def dbOneUnit : DB :=
  { products := [("P1", prodOneUnit)], carts := [], orders := [], tracking := [],
    nextOrderId := 0, nextRand := 0 }

/-- Claim C2 (counterexample): subtracting 2 units from a product holding
1 unit does not fail with `InsufficientStock` — the call succeeds and the
stored stock becomes `-1`. -/
theorem updateStock_subtract_below_zero :
    (updateStock dbOneUnit "P1" 2 .subtract).2 = .ok () ∧
    (lookupA (updateStock dbOneUnit "P1" 2 .subtract).1.products "P1").map Product.stock =
      some (-1) := by
  exact ⟨rfl, by decide⟩

/-- Claim C2 (amended): `ProductService.updateStock` with operation
`subtract` applies the decrement unconditionally whenever the product
document exists: it succeeds for every requested quantity `q`, storing
`stock - q` (which may be negative).  No `InsufficientStock` check exists;
the only failure is a missing product document. -/
theorem updateStock_unconditional_subtract (s : DB) (productId : String) (q : Nat) (p : Product)
    (h : lookupA s.products productId = some p) :
    (updateStock s productId q .subtract).2 = .ok () ∧
    (lookupA (updateStock s productId q .subtract).1.products productId).map Product.stock =
      some (p.stock - (q : Int)) := by
  unfold updateStock
  rw [h]
  refine ⟨rfl, ?_⟩
  simp only [lookupA_setA_self, Option.map_some, Int.sub_eq_add_neg]
  rfl

/-- Witness for `updateStock_unconditional_subtract`: subtracting 3 from
stock 1 yields stock `-2`. -/
theorem updateStock_unconditional_subtract_witness :
    (updateStock dbOneUnit "P1" 3 .subtract).2 = .ok () ∧
    (lookupA (updateStock dbOneUnit "P1" 3 .subtract).1.products "P1").map Product.stock =
      some (1 - (3 : Int)) :=
  updateStock_unconditional_subtract dbOneUnit "P1" 3 prodOneUnit rfl

/-! ## C3: create-then-cancel on a multi-product seller partition -/

/-- First product of the two-product partition (5 in stock). -/
def prodAlpha : Product :=
  { sellerId := "S1", title := "Alpha", price := 10, stock := 5, status := .active }

/-- Second product of the two-product partition (5 in stock). -/
def prodBeta : Product :=
  { sellerId := "S1", title := "Beta", price := 20, stock := 5, status := .active }

/-- Cart line: one unit of `Alpha`. -/
def itemAlpha : CartItem := { productId := "P1", product := prodAlpha, quantity := 1 }

/-- Cart line: two units of `Beta`. -/
def itemBeta : CartItem := { productId := "P2", product := prodBeta, quantity := 2 }

/-- Store with the two products, both at stock 5. -/
def dbTwoProducts : DB :=
  { products := [("P1", prodAlpha), ("P2", prodBeta)], carts := [], orders := [],
    tracking := [], nextOrderId := 0, nextRand := 0 }

/-- The store right after creating the seller-partition order. -/
def dbAfterCreate : DB := (createSingleOrder dbTwoProducts "B" "S1" [itemAlpha, itemBeta]).1

/-- The store right after cancelling that order from `pending`. -/
def dbAfterCancel : DB := (cancelOrder dbAfterCreate 0 "B" "no longer needed").1

/-- Claim C3 (code bug): creating an order for the partition
`[Alpha × 1, Beta × 2]` subtracts 1 from `P1` and 2 from `P2`
(stocks 4 and 3), but cancelling the pending order adds the order's
aggregate quantity 3 back to `P1` alone: the final stocks are 7 and 3,
not the pre-creation 5 and 5 — create-then-cancel is not a stock no-op. -/
theorem create_then_cancel_not_reversed :
    (createSingleOrder dbTwoProducts "B" "S1" [itemAlpha, itemBeta]).2 = .ok 0 ∧
    (lookupA dbAfterCreate.products "P1").map Product.stock = some 4 ∧
    (lookupA dbAfterCreate.products "P2").map Product.stock = some 3 ∧
    (lookupA dbAfterCreate.orders 0).map Order.status = some .pending ∧
    (cancelOrder dbAfterCreate 0 "B" "no longer needed").2 = .ok () ∧
    (lookupA dbAfterCancel.products "P1").map Product.stock = some 7 ∧
    (lookupA dbAfterCancel.products "P2").map Product.stock = some 3 ∧
    (lookupA dbTwoProducts.products "P1").map Product.stock = some 5 ∧
    (lookupA dbTwoProducts.products "P2").map Product.stock = some 5 := by
  exact ⟨rfl, by decide, by decide, by decide, rfl, by decide, by decide, by decide, by decide⟩

/-! ## C4: the two-buyer checkout race -/

/-- The contested product: exactly one unit in stock. -/
def prodHot : Product :=
  { sellerId := "S1", title := "Hot", price := 100, stock := 1, status := .active }

/-- The cart line both buyers hold: one unit of `P`. -/
def itemHot : CartItem := { productId := "P", product := prodHot, quantity := 1 }

/-- Buyer A's cart. -/
def cartA : Cart := { userId := "A", items := [itemHot], totalItems := 1, totalAmount := 100 }

/-- Buyer B's cart. -/
def cartB : Cart := { userId := "B", items := [itemHot], totalItems := 1, totalAmount := 100 }

/-- Store before the race: stock 1, both buyers hold the product. -/
def dbRace : DB :=
  { products := [("P", prodHot)], carts := [("A", cartA), ("B", cartB)], orders := [],
    tracking := [], nextOrderId := 0, nextRand := 0 }

/-- A's checkout validation (read-only phase of `createOrderFromCart`). -/
def raceValA : DB × ValidationResult := validateCartForCheckout (getCart dbRace "A").1 "A"

/-- B's checkout validation, interleaved before either commit phase. -/
def raceValB : DB × ValidationResult := validateCartForCheckout (getCart raceValA.1 "B").1 "B"

/-- A's commit phase, run after both validations. -/
def raceCommitA : DB × Except String (List Nat) :=
  checkoutCommitPhase raceValB.1 "A" (getCart dbRace "A").2 raceValA.2

/-- B's commit phase, run last. -/
def raceCommitB : DB × Except String (List Nat) :=
  checkoutCommitPhase raceCommitA.1 "B" (getCart raceValA.1 "B").2 raceValB.2

/-- Claim C4 (code bug): under the interleaving where both checkouts pass
validation before either commits (each `await` of `createOrderFromCart` is
a scheduling point), *both* calls succeed — two orders are created for the
single unit and the stored stock of `P` ends at `-1`, because the commit
path performs no stock check and `updateStock` decrements blindly. -/
theorem checkout_race_oversells :
    raceCommitA.2 = .ok [0] ∧
    raceCommitB.2 = .ok [1] ∧
    raceValA.2.isValid = true ∧
    raceValB.2.isValid = true ∧
    (lookupA raceCommitB.1.products "P").map Product.stock = some (-1) ∧
    (lookupA raceCommitB.1.orders 0).map Order.status = some .pending ∧
    (lookupA raceCommitB.1.orders 1).map Order.status = some .pending := by
  have hA : raceValA = (dbRace, { isValid := true, errors := [], unavailableItems := [] }) := by
    simp [raceValA, validateCartForCheckout, getCart, dbRace, lookupA, cartA, validateItems,
      getProduct, prodHot, itemHot, ratAbs]
    norm_num
  have hB : raceValB = (dbRace, { isValid := true, errors := [], unavailableItems := [] }) := by
    simp [raceValB, hA, validateCartForCheckout, getCart, dbRace, lookupA, cartB, validateItems,
      getProduct, prodHot, itemHot, ratAbs]
    norm_num
  refine ⟨?_, ?_, ?_, ?_, ?_, ?_, ?_⟩ <;>
    simp [raceCommitA, raceCommitB, hA, hB, checkoutCommitPhase, createOrdersLoop,
      createSingleOrder, subtractStocks, updateStock, clearCart, groupCartItemsBySeller,
      addToGroup, getCart, getProduct, lookupA, setA, addTrackingEntry, dbRace, cartA, cartB,
      prodHot, itemHot, sumQty, sumAmt, generateOrderCode, generateVerificationCode, emptyCart]

/-! ## C6: delivery verification -/

/-- Claim C6: `verifyOrderDelivery` succeeds (returning `ok true` and
moving the order to `delivered`) iff the order's status is exactly
`in_transit` and the supplied code equals the stored `verificationCode`;
a code mismatch fails with the invalid-code error, a matching code on a
non-`in_transit` order fails with the not-ready error, and every failing
call leaves the whole store (in particular the order's status) unchanged. -/
theorem verifyOrderDelivery_correct (s : DB) (orderId : Nat) (code verifiedBy : String)
    (o : Order) (h : lookupA s.orders orderId = some o) :
    ((verifyOrderDelivery s orderId code verifiedBy).2 = .ok true ↔
      o.status = .in_transit ∧ o.verificationCode = code) ∧
    (o.status = .in_transit → o.verificationCode = code →
      (lookupA (verifyOrderDelivery s orderId code verifiedBy).1.orders orderId).map
        Order.status = some .delivered) ∧
    (o.verificationCode ≠ code →
      (verifyOrderDelivery s orderId code verifiedBy).2 = .error "Invalid verification code" ∧
      (verifyOrderDelivery s orderId code verifiedBy).1 = s) ∧
    (o.verificationCode = code → o.status ≠ .in_transit →
      (verifyOrderDelivery s orderId code verifiedBy).2 =
        .error "Order is not ready for delivery verification" ∧
      (verifyOrderDelivery s orderId code verifiedBy).1 = s) := by
  unfold verifyOrderDelivery
  rw [h]
  by_cases hc : o.verificationCode = code
  · by_cases hs : o.status = OrderStatus.in_transit
    · unfold updateOrderStatus
      rw [h]
      simp [hc, hs, addTrackingEntry, lookupA_setA_self]
    · simp [hc, hs]
  · simp [hc]

/-- An order sitting `in_transit` with verification code `482913`. -/
def orderInTransit : Order :=
  { orderNumber := "R9J7", buyerId := "B", sellerId := "S1", productId := "P1",
    productName := "Widget", productPrice := 100, quantity := 1, totalAmount := 100,
    status := .in_transit, verificationCode := "482913", riderId := none, riderInfo := none }

/-- Store holding `orderInTransit` under id 0. -/
def dbInTransit : DB :=
  { products := [], carts := [], orders := [(0, orderInTransit)], tracking := [],
    nextOrderId := 1, nextRand := 0 }

/-- Witness for `verifyOrderDelivery_correct`: the right code on an
`in_transit` order succeeds and delivers; a wrong code fails with the
invalid-code error and changes nothing. -/
theorem verifyOrderDelivery_correct_witness :
    (verifyOrderDelivery dbInTransit 0 "482913" "R").2 = .ok true ∧
    (lookupA (verifyOrderDelivery dbInTransit 0 "482913" "R").1.orders 0).map Order.status =
      some .delivered ∧
    (verifyOrderDelivery dbInTransit 0 "000000" "R").2 = .error "Invalid verification code" ∧
    (verifyOrderDelivery dbInTransit 0 "000000" "R").1 = dbInTransit := by
  have hok := verifyOrderDelivery_correct dbInTransit 0 "482913" "R" orderInTransit rfl
  have hbad := verifyOrderDelivery_correct dbInTransit 0 "000000" "R" orderInTransit rfl
  have hm : orderInTransit.verificationCode ≠ "000000" := by decide
  exact ⟨hok.1.mpr ⟨rfl, rfl⟩, hok.2.1 rfl rfl, (hbad.2.2.1 hm).1, (hbad.2.2.1 hm).2⟩

/-! ## C7: addToCart -/

/-- An inactive product with plenty of stock. -/
def prodInactive : Product :=
  { sellerId := "S1", title := "Idle", price := 50, stock := 10, status := .inactive }

/-- A user with an existing empty cart and an inactive product on offer. -/
def dbInactive : DB :=
  { products := [("PI", prodInactive)],
    carts := [("U", { userId := "U", items := [], totalItems := 0, totalAmount := 0 })],
    orders := [], tracking := [], nextOrderId := 0, nextRand := 0 }

/-- Claim C7 (counterexample): the live product's status is `inactive`,
yet `addToCart` succeeds and appends the line — the source checks only
stock, never `status`, so no `ProductUnavailable` failure occurs. -/
theorem addToCart_ignores_inactive_status :
    prodInactive.status ≠ ProductStatus.active ∧
    (addToCart dbInactive "U" "PI" 1).2 = .ok () ∧
    (lookupA (addToCart dbInactive "U" "PI" 1).1.carts "U").map Cart.items =
      some [{ productId := "PI", product := prodInactive, quantity := 1 }] := by
  refine ⟨by decide, ?_, ?_⟩ <;>
    simp [addToCart, getProduct, getCart, dbInactive, lookupA, setA, prodInactive,
      calculateCartTotals]

/-- Claim C7 (amended): `addToCart` fails with the product-unavailable
error only when the requested quantity exceeds the *live stock* (or the
product is missing); the live product's `status` is never examined.  When
the product is already in the cart the quantities are merged and re-checked
against the live stock (not the snapshot), otherwise a new line holding a
fresh snapshot of the live product is appended. -/
theorem addToCart_behavior (s : DB) (userId productId : String) (qty : Nat) :
    (lookupA s.products productId = none →
      (addToCart s userId productId qty).2 = .error "Product not found" ∧
      (addToCart s userId productId qty).1 = s) ∧
    (∀ p, lookupA s.products productId = some p →
      (p.stock < (qty : Int) →
        (addToCart s userId productId qty).2 = .error "Insufficient stock available" ∧
        (addToCart s userId productId qty).1 = s) ∧
      (∀ cart, lookupA s.carts userId = some cart → ¬ p.stock < (qty : Int) →
        (∀ e, cart.items.find? (fun it => it.productId = productId) = some e →
          ((((e.quantity + qty : Nat) : Int) > p.stock →
            (addToCart s userId productId qty).2 =
              .error "Cannot add more items than available stock" ∧
            (addToCart s userId productId qty).1 = s) ∧
           (¬ ((e.quantity + qty : Nat) : Int) > p.stock →
            (addToCart s userId productId qty).2 = .ok () ∧
            (lookupA (addToCart s userId productId qty).1.carts userId).map Cart.items =
              some (updateFirstQty cart.items productId (e.quantity + qty))))) ∧
        (cart.items.find? (fun it => it.productId = productId) = none →
          (addToCart s userId productId qty).2 = .ok () ∧
          (lookupA (addToCart s userId productId qty).1.carts userId).map Cart.items =
            some (cart.items ++ [{ productId := productId, product := p, quantity := qty }])))) := by
  constructor
  · intro hnone
    simp [addToCart, getProduct, hnone]
  · intro p hp
    constructor
    · intro hlt
      simp [addToCart, getProduct, hp, hlt]
    · intro cart hcart hge
      constructor
      · intro e hfind
        constructor
        · intro hover
          push_cast at hover
          simp [addToCart, getProduct, hp, hge, getCart, hcart, hfind, hover]
        · intro hok
          push_cast at hok
          simp [addToCart, getProduct, hp, hge, getCart, hcart, hfind, hok,
            lookupA_setA_self]
      · intro hfind
        simp [addToCart, getProduct, hp, hge, getCart, hcart, hfind, lookupA_setA_self]

/-- Witness for `addToCart_behavior`: on the inactive-product store,
requesting 20 units exceeds the live stock of 10 and fails, while
requesting 1 unit appends the snapshot line. -/
theorem addToCart_behavior_witness :
    ((addToCart dbInactive "U" "PI" 20).2 = .error "Insufficient stock available" ∧
      (addToCart dbInactive "U" "PI" 20).1 = dbInactive) ∧
    ((addToCart dbInactive "U" "PI" 1).2 = .ok () ∧
      (lookupA (addToCart dbInactive "U" "PI" 1).1.carts "U").map Cart.items =
        some ([] ++ [{ productId := "PI", product := prodInactive, quantity := 1 }])) := by
  have h20 := (addToCart_behavior dbInactive "U" "PI" 20).2 prodInactive rfl
  have h1 := (addToCart_behavior dbInactive "U" "PI" 1).2 prodInactive rfl
  refine ⟨h20.1 (by decide), ?_⟩
  have hc := (h1.2 { userId := "U", items := [], totalItems := 0, totalAmount := 0 }
    rfl (by decide)).2 rfl
  exact hc

/-! ## C8: checkout validation is (almost) read-only -/

/-- A store in which user `U` has no cart document yet. -/
def dbNoCart : DB :=
  { products := [], carts := [], orders := [], tracking := [], nextOrderId := 0, nextRand := 0 }

/-- Claim C8 (counterexample): for a user with no cart document,
`validateCartForCheckout` is not mutation-free — its internal `getCart`
creates (writes) an empty cart document for the user. -/
theorem validateCartForCheckout_creates_cart :
    lookupA dbNoCart.carts "U" = none ∧
    lookupA (validateCartForCheckout dbNoCart "U").1.carts "U" = some (emptyCart "U") := by
  exact ⟨rfl, by simp [validateCartForCheckout, getCart, dbNoCart, lookupA, setA, emptyCart]⟩

/-- Claim C8 (amended): `validateCartForCheckout` never touches products,
orders, the tracking log or the id counters, and leaves the whole store
unchanged whenever the user already has a cart document; the single
mutation is the lazy creation of an empty cart document when the user has
none. -/
theorem validateCartForCheckout_frame (s : DB) (userId : String) :
    (validateCartForCheckout s userId).1.products = s.products ∧
    (validateCartForCheckout s userId).1.orders = s.orders ∧
    (validateCartForCheckout s userId).1.tracking = s.tracking ∧
    (validateCartForCheckout s userId).1.nextOrderId = s.nextOrderId ∧
    (validateCartForCheckout s userId).1.nextRand = s.nextRand ∧
    (∀ c, lookupA s.carts userId = some c → (validateCartForCheckout s userId).1 = s) ∧
    (lookupA s.carts userId = none →
      (validateCartForCheckout s userId).1.carts = setA s.carts userId (emptyCart userId)) := by
  have hstate : (validateCartForCheckout s userId).1 = (getCart s userId).1 := by
    unfold validateCartForCheckout
    dsimp only
    split <;> rfl
  cases hl : lookupA s.carts userId with
  | some c =>
    have hg : (getCart s userId).1 = s := by unfold getCart; rw [hl]
    rw [hstate, hg]
    simp [hl]
  | none =>
    have hg : (getCart s userId).1 = { s with carts := setA s.carts userId (emptyCart userId) } := by
      unfold getCart; rw [hl]
    rw [hstate, hg]
    simp [hl]

/-- Witness for `validateCartForCheckout_frame`: the lazily created cart
document on `dbNoCart`, and full store preservation on `dbInactive` where
user `U` already has a cart. -/
theorem validateCartForCheckout_frame_witness :
    (validateCartForCheckout dbNoCart "U").1.carts = setA dbNoCart.carts "U" (emptyCart "U") ∧
    (validateCartForCheckout dbInactive "U").1 = dbInactive := by
  refine ⟨(validateCartForCheckout_frame dbNoCart "U").2.2.2.2.2.2 rfl, ?_⟩
  exact (validateCartForCheckout_frame dbInactive "U").2.2.2.2.2.1
    { userId := "U", items := [], totalItems := 0, totalAmount := 0 } rfl

/-! ## C9: cart totals are recomputed on every mutation -/

/-- The cart-totals invariant: stored totals equal the sums over the item
list. -/
def cartInv (c : Cart) : Prop :=
  c.totalItems = sumQty c.items ∧ c.totalAmount = sumAmt c.items

/-- Every cart written with `calculateCartTotals` satisfies the
invariant. -/
theorem cartInv_recomputed (uid : String) (items : List CartItem) :
    cartInv { userId := uid, items := items,
              totalItems := (calculateCartTotals items).1,
              totalAmount := (calculateCartTotals items).2 } := by
  simp [cartInv, calculateCartTotals_eq]

/-- The empty cart satisfies the invariant. -/
theorem cartInv_empty (uid : String) : cartInv (emptyCart uid) := by
  simp [cartInv, emptyCart, sumQty, sumAmt]

/-- Claim C9: after every cart mutation (`addToCart`,
`updateCartItemQuantity`, `removeFromCart`, `clearCart`,
`syncCartWithLatestData`), the stored cart still satisfies
`totalItems = Σ quantity` and `totalAmount = Σ snapshot price × quantity`:
every write recomputes the totals from the item list (via
`calculateCartTotals`) rather than patching them incrementally. -/
theorem cart_totals_recomputed (s : DB) (userId productId : String) (qty : Nat) (qz : Int)
    (hpre : ∀ c, lookupA s.carts userId = some c → cartInv c) :
    (∀ c, lookupA (addToCart s userId productId qty).1.carts userId = some c → cartInv c) ∧
    (∀ c, lookupA (updateCartItemQuantity s userId productId qz).1.carts userId = some c →
      cartInv c) ∧
    (∀ c, lookupA (removeFromCart s userId productId).1.carts userId = some c → cartInv c) ∧
    (∀ c, lookupA (clearCart s userId).1.carts userId = some c → cartInv c) ∧
    (∀ c, lookupA (syncCartWithLatestData s userId).1.carts userId = some c → cartInv c) := by
  have hrem : ∀ c, lookupA (removeFromCart s userId productId).1.carts userId = some c →
      cartInv c := by
    intro c hc
    cases hl : lookupA s.carts userId with
    | some c0 =>
      simp only [removeFromCart, getCart, hl] at hc
      rw [lookupA_setA_self] at hc
      obtain rfl := Option.some.inj hc
      exact cartInv_recomputed _ _
    | none =>
      simp only [removeFromCart, getCart, hl] at hc
      rw [lookupA_setA_self] at hc
      obtain rfl := Option.some.inj hc
      exact cartInv_recomputed _ _
  have hadd : ∀ c, lookupA (addToCart s userId productId qty).1.carts userId = some c →
      cartInv c := by
    intro c hc
    cases hp : lookupA s.products productId with
    | none =>
      simp only [addToCart, getProduct, hp] at hc
      exact hpre c hc
    | some p =>
      by_cases hlt : p.stock < (qty : Int)
      · simp only [addToCart, getProduct, hp, if_pos hlt] at hc
        exact hpre c hc
      · cases hl : lookupA s.carts userId with
        | some c0 =>
          cases hf : c0.items.find? (fun it => it.productId = productId) with
          | some e =>
            by_cases hover : ((e.quantity + qty : Nat) : Int) > p.stock
            · simp only [addToCart, getProduct, hp, if_neg hlt, getCart, hl, hf,
                if_pos hover] at hc
              exact hpre c (hl.trans hc)
            · simp only [addToCart, getProduct, hp, if_neg hlt, getCart, hl, hf,
                if_neg hover] at hc
              rw [lookupA_setA_self] at hc
              obtain rfl := Option.some.inj hc
              exact cartInv_recomputed _ _
          | none =>
            simp only [addToCart, getProduct, hp, if_neg hlt, getCart, hl, hf] at hc
            rw [lookupA_setA_self] at hc
            obtain rfl := Option.some.inj hc
            exact cartInv_recomputed _ _
        | none =>
          simp only [addToCart, getProduct, hp, if_neg hlt, getCart, hl, emptyCart,
            List.find?] at hc
          rw [lookupA_setA_self] at hc
          obtain rfl := Option.some.inj hc
          exact cartInv_recomputed _ _
  have hupd : ∀ c, lookupA (updateCartItemQuantity s userId productId qz).1.carts userId =
      some c → cartInv c := by
    intro c hc
    by_cases hneg : qz < 0
    · simp only [updateCartItemQuantity, if_pos hneg] at hc
      exact hpre c hc
    · by_cases hzero : qz = 0
      · simp only [updateCartItemQuantity, if_neg hneg, if_pos hzero] at hc
        exact hrem c hc
      · cases hp : lookupA s.products productId with
        | none =>
          simp only [updateCartItemQuantity, if_neg hneg, if_neg hzero, getProduct, hp] at hc
          exact hpre c hc
        | some p =>
          by_cases hgt : qz > p.stock
          · simp only [updateCartItemQuantity, if_neg hneg, if_neg hzero, getProduct, hp,
              if_pos hgt] at hc
            exact hpre c hc
          · cases hl : lookupA s.carts userId with
            | some c0 =>
              simp only [updateCartItemQuantity, if_neg hneg, if_neg hzero, getProduct, hp,
                if_neg hgt, getCart, hl] at hc
              rw [lookupA_setA_self] at hc
              obtain rfl := Option.some.inj hc
              exact cartInv_recomputed _ _
            | none =>
              simp only [updateCartItemQuantity, if_neg hneg, if_neg hzero, getProduct, hp,
                if_neg hgt, getCart, hl] at hc
              rw [lookupA_setA_self] at hc
              obtain rfl := Option.some.inj hc
              exact cartInv_recomputed _ _
  have hclear : ∀ c, lookupA (clearCart s userId).1.carts userId = some c → cartInv c := by
    intro c hc
    cases hl : lookupA s.carts userId with
    | none =>
      simp only [clearCart, hl] at hc
      exact Option.noConfusion hc
    | some c0 =>
      simp only [clearCart, hl] at hc
      rw [lookupA_setA_self] at hc
      obtain rfl := Option.some.inj hc
      exact ⟨rfl, rfl⟩
  have hsync : ∀ c, lookupA (syncCartWithLatestData s userId).1.carts userId = some c →
      cartInv c := by
    intro c hc
    cases hl : lookupA s.carts userId with
    | some c0 =>
      by_cases hch : (syncItems s c0.items).2
      · simp only [syncCartWithLatestData, getCart, hl, hch, if_pos, if_true] at hc
        rw [lookupA_setA_self] at hc
        obtain rfl := Option.some.inj hc
        exact cartInv_recomputed _ _
      · simp only [syncCartWithLatestData, getCart, hl, hch, Bool.false_eq_true,
          if_false] at hc
        exact hpre c (hl.trans hc)
    | none =>
      simp [syncCartWithLatestData, getCart, hl, emptyCart, syncItems] at hc
      rw [lookupA_setA_self] at hc
      obtain rfl := Option.some.inj hc
      exact cartInv_empty _
  exact ⟨hadd, hupd, hrem, hclear, hsync⟩

/-- Witness for `cart_totals_recomputed`: adding one unit of the
10-in-stock product to user `U`'s empty cart on `dbInactive` yields a
stored cart whose totals are the recomputed sums. -/
theorem cart_totals_recomputed_witness :
    cartInv { userId := "U",
              items := [{ productId := "PI", product := prodInactive, quantity := 1 }],
              totalItems :=
                (calculateCartTotals
                  [{ productId := "PI", product := prodInactive, quantity := 1 }]).1,
              totalAmount :=
                (calculateCartTotals
                  [{ productId := "PI", product := prodInactive, quantity := 1 }]).2 } := by
  have hp : ∀ c, lookupA dbInactive.carts "U" = some c → cartInv c := by
    intro c hc
    simp [dbInactive, lookupA] at hc
    subst hc
    exact ⟨rfl, rfl⟩
  apply (cart_totals_recomputed dbInactive "U" "PI" 1 0 hp).1
  simp [addToCart, getProduct, getCart, dbInactive, lookupA, setA, prodInactive]

/-! ## C10: the pricing computation and its three call sites -/

/-- Claim C10: the pricing formula is `tax = subtotal * 0.05`,
`deliveryFee = 0` iff `subtotal > 10000` else `1000`, and
`total = subtotal + tax + deliveryFee`; the cart-display path
(`renderCartSummary`), the checkout path (`calculateOrderSummary`) and the
service path (`getCartSummary`) all compute the identical function of the
subtotal, which coincides with the spec's `computeTotals`. -/
theorem pricing_paths_agree :
    (∀ subtotal : ℚ,
      renderCartSummaryPricing subtotal = calculateOrderSummaryPricing subtotal ∧
      renderCartSummaryPricing subtotal = computeTotals subtotal ∧
      (renderCartSummaryPricing subtotal).1 = subtotal * (5/100) ∧
      (renderCartSummaryPricing subtotal).2.1 = (if subtotal > 10000 then 0 else 1000) ∧
      (renderCartSummaryPricing subtotal).2.2 =
        subtotal + subtotal * (5/100) + (if subtotal > 10000 then 0 else 1000)) ∧
    (∀ (s : DB) (u : String),
      (getCartSummary s u).2.subtotal = (getCart s u).2.totalAmount ∧
      ((getCartSummary s u).2.tax, (getCartSummary s u).2.deliveryFee,
        (getCartSummary s u).2.total) = computeTotals (getCartSummary s u).2.subtotal) := by
  constructor
  · intro subtotal
    exact ⟨rfl, rfl, rfl, rfl, rfl⟩
  · intro s u
    exact ⟨rfl, rfl⟩

/-! ## C5: multi-seller checkout — supporting lemmas -/

theorem lookupA_append {κ α : Type} [DecidableEq κ] (l₁ l₂ : List (κ × α)) (k : κ) :
    lookupA (l₁ ++ l₂) k =
      match lookupA l₁ k with
      | some v => some v
      | none => lookupA l₂ k := by
  induction l₁ with
  | nil => simp [lookupA]
  | cons h t ih =>
    obtain ⟨k', v'⟩ := h
    by_cases hk : k' = k
    · simp [lookupA, hk]
    · simp [lookupA, hk, ih]

theorem lookupA_append_left {κ α : Type} [DecidableEq κ] (l₁ l₂ : List (κ × α)) (k : κ) (v : α)
    (h : lookupA l₁ k = some v) : lookupA (l₁ ++ l₂) k = some v := by
  rw [lookupA_append, h]

theorem lookupA_append_right {κ α : Type} [DecidableEq κ] (l₁ l₂ : List (κ × α)) (k : κ)
    (h : lookupA l₁ k = none) : lookupA (l₁ ++ l₂) k = lookupA l₂ k := by
  rw [lookupA_append, h]

theorem isSome_lookupA_setA_eq {κ α : Type} [DecidableEq κ] (l : List (κ × α)) (k : κ) (v : α)
    (hk : (lookupA l k).isSome) (k' : κ) :
    (lookupA (setA l k v) k').isSome = (lookupA l k').isSome := by
  by_cases h : k = k'
  · subst h
    simp [lookupA_setA_self, hk]
  · rw [lookupA_setA_ne l k k' v h]

/-- The stock-decrement loop succeeds whenever every item's product
document exists, modifies only the products (preserving which product ids
exist), and touches nothing else. -/
theorem subtractStocks_spec :
    ∀ (items : List CartItem) (s : DB),
    (∀ it ∈ items, (lookupA s.products it.productId).isSome) →
    ∃ s', subtractStocks s items = (s', .ok ()) ∧
      s'.carts = s.carts ∧ s'.orders = s.orders ∧ s'.tracking = s.tracking ∧
      s'.nextOrderId = s.nextOrderId ∧ s'.nextRand = s.nextRand ∧
      (∀ pid, (lookupA s'.products pid).isSome = (lookupA s.products pid).isSome) := by
  intro items
  induction items with
  | nil =>
    intro s _
    exact ⟨s, rfl, rfl, rfl, rfl, rfl, rfl, fun _ => rfl⟩
  | cons it rest ih =>
    intro s hall
    have hit := hall it (by simp)
    obtain ⟨p, hp⟩ := Option.isSome_iff_exists.mp hit
    set p2 : Product := { p with stock := p.stock + -(it.quantity : Int) } with hp2
    have hstep : updateStock s it.productId it.quantity .subtract =
        ({ s with products := setA s.products it.productId p2 }, .ok ()) := by
      unfold updateStock
      rw [hp]
    set s2 : DB := { s with products := setA s.products it.productId p2 } with hs2
    have hdom : ∀ pid, (lookupA s2.products pid).isSome = (lookupA s.products pid).isSome := by
      intro pid
      exact isSome_lookupA_setA_eq s.products it.productId _ (by rw [hp]; rfl) pid
    have hrest : ∀ x ∈ rest, (lookupA s2.products x.productId).isSome := by
      intro x hx
      rw [hdom]
      exact hall x (by simp [hx])
    obtain ⟨s', hrun, hcarts, horders, htr, hnid, hnr, hdom'⟩ := ih s2 hrest
    refine ⟨s', ?_, hcarts, horders, htr, hnid, hnr, fun pid => (hdom' pid).trans (hdom pid)⟩
    unfold subtractStocks
    rw [hstep]
    exact hrun

/-- `createSingleOrder` on a nonempty partition whose products all exist:
returns the next order id, appends exactly one `pending` order whose
fields are the partition aggregates and the first item's snapshot, leaves
carts untouched, and preserves which product ids exist. -/
theorem createSingleOrder_spec (s : DB) (buyerId sellerId : String) (items : List CartItem)
    (hne : items ≠ [])
    (hprod : ∀ it ∈ items, (lookupA s.products it.productId).isSome) :
    ∃ s', createSingleOrder s buyerId sellerId items = (s', .ok s.nextOrderId) ∧
      s'.carts = s.carts ∧
      s'.nextOrderId = s.nextOrderId + 1 ∧
      (∀ pid, (lookupA s'.products pid).isSome = (lookupA s.products pid).isSome) ∧
      ∃ ord, s'.orders = s.orders ++ [(s.nextOrderId, ord)] ∧
        ord.buyerId = buyerId ∧ ord.sellerId = sellerId ∧
        (∀ it0, items.head? = some it0 → ord.productId = it0.productId ∧
          ord.productPrice = it0.product.price ∧ ord.productName = it0.product.title) ∧
        ord.quantity = sumQty items ∧ ord.totalAmount = sumAmt items ∧
        ord.status = .pending := by
  cases items with
  | nil => exact absurd rfl hne
  | cons firstItem restItems =>
    set ord : Order :=
      { orderNumber := generateOrderCode s.nextRand, buyerId := buyerId, sellerId := sellerId,
        productId := firstItem.productId, productName := firstItem.product.title,
        productPrice := firstItem.product.price, quantity := sumQty (firstItem :: restItems),
        totalAmount := sumAmt (firstItem :: restItems), status := .pending,
        verificationCode := generateVerificationCode (s.nextRand + 1),
        riderId := none, riderInfo := none } with hord
    set s1 : DB := { s with orders := s.orders ++ [(s.nextOrderId, ord)],
                            nextOrderId := s.nextOrderId + 1, nextRand := s.nextRand + 2 }
      with hs1
    have hprod1 : ∀ it ∈ (firstItem :: restItems), (lookupA s1.products it.productId).isSome :=
      hprod
    obtain ⟨s2, hrun, hcarts, horders, htr, hnid, hnr, hdom⟩ :=
      subtractStocks_spec (firstItem :: restItems) s1 hprod1
    refine ⟨addTrackingEntry s2 s.nextOrderId .pending "Order placed successfully" buyerId,
      ?_, ?_, ?_, ?_, ord, ?_, rfl, rfl, ?_, rfl, rfl, rfl⟩
    · have hunfold : createSingleOrder s buyerId sellerId (firstItem :: restItems) =
          (let r := subtractStocks s1 (firstItem :: restItems)
           match r.2 with
           | .error e => (r.1, .error e)
           | .ok _ => (addTrackingEntry r.1 s.nextOrderId .pending
               "Order placed successfully" buyerId, .ok s.nextOrderId)) := rfl
      rw [hunfold, hrun]
    · simpa [addTrackingEntry] using hcarts
    · simpa [addTrackingEntry] using hnid
    · intro pid
      simpa [addTrackingEntry] using hdom pid
    · simpa [addTrackingEntry] using horders
    · intro it0 h0
      obtain rfl : firstItem = it0 := by simpa using h0
      exact ⟨rfl, rfl, rfl⟩

theorem range_map_shift (n a : Nat) :
    (List.range (n+1)).map (fun k => a + k) = a :: (List.range n).map (fun k => a + 1 + k) := by
  rw [List.range_succ_eq_map]
  simp only [List.map_cons, List.map_map, Nat.add_zero]
  refine congrArg _ (List.map_congr_left ?_)
  intro x _
  simp [Function.comp]
  omega

/-- The per-seller loop of `createOrderFromCart`: when every group is
nonempty and every referenced product exists, it creates one `pending`
order per group, at consecutive ids starting at `nextOrderId`, carrying
that group's aggregates and first snapshot; carts are untouched and
existing orders are preserved. -/
theorem createOrdersLoop_spec (buyerId : String) :
    ∀ (groups : List (String × List CartItem)) (s : DB),
    (∀ k, s.nextOrderId ≤ k → lookupA s.orders k = none) →
    (∀ g ∈ groups, g.2 ≠ [] ∧ ∀ it ∈ g.2, (lookupA s.products it.productId).isSome) →
    ∃ s', createOrdersLoop s buyerId groups =
        (s', .ok ((List.range groups.length).map (fun k => s.nextOrderId + k))) ∧
      s'.carts = s.carts ∧
      s'.nextOrderId = s.nextOrderId + groups.length ∧
      (∀ pid, (lookupA s'.products pid).isSome = (lookupA s.products pid).isSome) ∧
      (∀ k, s'.nextOrderId ≤ k → lookupA s'.orders k = none) ∧
      (∀ k v, lookupA s.orders k = some v → lookupA s'.orders k = some v) ∧
      (∀ k g, groups[k]? = some g →
        (lookupA s'.orders (s.nextOrderId + k)).map Order.buyerId = some buyerId ∧
        (lookupA s'.orders (s.nextOrderId + k)).map Order.sellerId = some g.1 ∧
        (∀ it0, g.2.head? = some it0 →
          (lookupA s'.orders (s.nextOrderId + k)).map Order.productId = some it0.productId) ∧
        (lookupA s'.orders (s.nextOrderId + k)).map Order.quantity = some (sumQty g.2) ∧
        (lookupA s'.orders (s.nextOrderId + k)).map Order.totalAmount = some (sumAmt g.2) ∧
        (lookupA s'.orders (s.nextOrderId + k)).map Order.status = some OrderStatus.pending) := by
  intro groups
  induction groups with
  | nil =>
    intro s hfresh _
    refine ⟨s, rfl, rfl, by simp, fun _ => rfl, by simpa using hfresh, fun k v h => h, ?_⟩
    intro k g hg
    simp at hg
  | cons g0 rest ih =>
    intro s hfresh hgroups
    obtain ⟨sid, items⟩ := g0
    obtain ⟨hne, hprods⟩ := hgroups (sid, items) (by simp)
    obtain ⟨s2, hrun1, hcarts2, hnid2, hdom2, ord, horders2, hbuyer, hseller, hhead, hqty,
      hamt, hstatus⟩ := createSingleOrder_spec s buyerId sid items hne hprods
    have hlook2 : lookupA s2.orders s.nextOrderId = some ord := by
      rw [horders2]
      rw [lookupA_append_right _ _ _ (hfresh s.nextOrderId (le_refl _))]
      simp [lookupA]
    have hfresh2 : ∀ k, s2.nextOrderId ≤ k → lookupA s2.orders k = none := by
      intro k hk
      rw [hnid2] at hk
      rw [horders2, lookupA_append_right _ _ _ (hfresh k (by omega))]
      have : s.nextOrderId ≠ k := by omega
      simp [lookupA, this]
    have hgroups2 : ∀ g ∈ rest, g.2 ≠ [] ∧
        ∀ it ∈ g.2, (lookupA s2.products it.productId).isSome := by
      intro g hg
      obtain ⟨h1, h2⟩ := hgroups g (by simp [hg])
      exact ⟨h1, fun it hit => by rw [hdom2]; exact h2 it hit⟩
    obtain ⟨s', hrunR, hcarts', hnid', hdom', hfresh', hmono', hper'⟩ := ih s2 hfresh2 hgroups2
    have hrun : createOrdersLoop s buyerId ((sid, items) :: rest) =
        (s', .ok (s.nextOrderId ::
          (List.range rest.length).map (fun k => s2.nextOrderId + k))) := by
      have hunfold : createOrdersLoop s buyerId ((sid, items) :: rest) =
          (let r := createSingleOrder s buyerId sid items
           match r.2 with
           | .error e => (r.1, .error e)
           | .ok orderId =>
             let r2 := createOrdersLoop r.1 buyerId rest
             match r2.2 with
             | .error e => (r2.1, .error e)
             | .ok orderIds => (r2.1, .ok (orderId :: orderIds))) := rfl
      rw [hunfold, hrun1]
      simp only []
      rw [hrunR]
    refine ⟨s', ?_, hcarts'.trans hcarts2,
      by rw [hnid', hnid2]; simp only [List.length_cons]; omega,
      fun pid => (hdom' pid).trans (hdom2 pid), hfresh', ?_, ?_⟩
    · rw [hrun]
      have : (List.range (rest.length + 1)).map (fun k => s.nextOrderId + k) =
          s.nextOrderId :: (List.range rest.length).map (fun k => s.nextOrderId + 1 + k) := by
        exact range_map_shift rest.length s.nextOrderId
      simp only [List.length_cons, this, hnid2]
    · intro k v hk
      exact hmono' k v (by rw [horders2]; exact lookupA_append_left _ _ _ _ hk)
    · intro k g hg
      cases k with
      | zero =>
        simp only [List.getElem?_cons_zero, Option.some.injEq] at hg
        subst hg
        have hfinal : lookupA s'.orders (s.nextOrderId + 0) = some ord := by
          simpa using hmono' s.nextOrderId ord hlook2
        rw [hfinal]
        refine ⟨by simp [hbuyer], by simp [hseller], ?_, by simp [hqty], by simp [hamt],
          by simp [hstatus]⟩
        intro it0 h0
        simp [(hhead it0 h0).1]
      | succ j =>
        simp only [List.getElem?_cons_succ] at hg
        have hj := hper' j g hg
        have haddr : s.nextOrderId + (j + 1) = s2.nextOrderId + j := by
          rw [hnid2]; omega
        rw [haddr]
        exact hj

theorem addToGroup_snd_nonempty (acc : List (String × List CartItem)) (sid : String)
    (it : CartItem) (h : ∀ g ∈ acc, g.2 ≠ []) :
    ∀ g ∈ addToGroup acc sid it, g.2 ≠ [] := by
  induction acc with
  | nil =>
    intro g hg
    simp [addToGroup] at hg
    subst hg
    simp
  | cons hd t ih =>
    obtain ⟨k, l⟩ := hd
    intro g hg
    by_cases hk : k = sid
    · simp only [addToGroup, if_pos hk, List.mem_cons] at hg
      rcases hg with hg | hg
      · subst hg; simp
      · exact h g (by simp [hg])
    · simp only [addToGroup, if_neg hk, List.mem_cons] at hg
      rcases hg with hg | hg
      · subst hg; exact h (k, l) (by simp)
      · exact ih (fun g' hg' => h g' (by simp [hg'])) g hg

theorem addToGroup_mem (acc : List (String × List CartItem)) (sid : String) (it : CartItem)
    (x : CartItem) (h : ∃ g ∈ addToGroup acc sid it, x ∈ g.2) :
    (∃ g ∈ acc, x ∈ g.2) ∨ x = it := by
  induction acc with
  | nil =>
    obtain ⟨g, hg, hx⟩ := h
    simp [addToGroup] at hg
    subst hg
    simp at hx
    exact Or.inr hx
  | cons hd t ih =>
    obtain ⟨k, l⟩ := hd
    obtain ⟨g, hg, hx⟩ := h
    by_cases hk : k = sid
    · simp only [addToGroup, if_pos hk, List.mem_cons] at hg
      rcases hg with hg | hg
      · subst hg
        simp at hx
        rcases hx with hx | hx
        · exact Or.inl ⟨(k, l), by simp, hx⟩
        · exact Or.inr hx
      · exact Or.inl ⟨g, by simp [hg], hx⟩
    · simp only [addToGroup, if_neg hk, List.mem_cons] at hg
      rcases hg with hg | hg
      · subst hg
        exact Or.inl ⟨(k, l), by simp, hx⟩
      · rcases ih ⟨g, hg, hx⟩ with ⟨g', hg', hx'⟩ | hx'
        · exact Or.inl ⟨g', by simp [hg'], hx'⟩
        · exact Or.inr hx'

theorem addToGroup_keys (acc : List (String × List CartItem)) (sid : String) (it : CartItem) :
    (addToGroup acc sid it).map Prod.fst =
      if sid ∈ acc.map Prod.fst then acc.map Prod.fst
      else acc.map Prod.fst ++ [sid] := by
  induction acc with
  | nil => simp [addToGroup]
  | cons hd t ih =>
    obtain ⟨k, l⟩ := hd
    by_cases hk : k = sid
    · simp [addToGroup, hk]
    · have hks : ¬ sid = k := fun h => hk h.symm
      simp only [addToGroup, if_neg hk, List.map_cons, ih, List.mem_cons]
      by_cases hmem : sid ∈ t.map Prod.fst
      · simp [hmem, hks]
      · simp [hmem, hks]

theorem mem_addToGroup_keys (acc : List (String × List CartItem)) (sid : String)
    (it : CartItem) (sid' : String) :
    sid' ∈ (addToGroup acc sid it).map Prod.fst ↔
      sid' ∈ acc.map Prod.fst ∨ sid' = sid := by
  rw [addToGroup_keys]
  by_cases hmem : sid ∈ acc.map Prod.fst
  · simp only [if_pos hmem]
    constructor
    · exact Or.inl
    · rintro (h | rfl)
      · exact h
      · exact hmem
  · simp [if_neg hmem]

theorem addToGroup_keys_nodup (acc : List (String × List CartItem)) (sid : String)
    (it : CartItem) (h : (acc.map Prod.fst).Nodup) :
    ((addToGroup acc sid it).map Prod.fst).Nodup := by
  rw [addToGroup_keys]
  by_cases hmem : sid ∈ acc.map Prod.fst
  · simpa [if_pos hmem] using h
  · rw [if_neg hmem, List.nodup_append]
    refine ⟨h, by simp, ?_⟩
    intro a ha hb
    simp at hb
    subst hb
    exact hmem ha

theorem groupAux_nonempty (items : List CartItem) :
    ∀ acc, (∀ g ∈ acc, g.2 ≠ []) →
    ∀ g ∈ items.foldl (fun groups item => addToGroup groups item.product.sellerId item) acc,
      g.2 ≠ [] := by
  induction items with
  | nil => intro acc h; simpa using h
  | cons it rest ih =>
    intro acc h
    simp only [List.foldl_cons]
    exact ih _ (addToGroup_snd_nonempty acc _ it h)

theorem groupAux_mem (items : List CartItem) :
    ∀ acc (x : CartItem),
    (∃ g ∈ items.foldl (fun groups item => addToGroup groups item.product.sellerId item) acc,
      x ∈ g.2) →
    (∃ g ∈ acc, x ∈ g.2) ∨ x ∈ items := by
  induction items with
  | nil => intro acc x h; exact Or.inl (by simpa using h)
  | cons it rest ih =>
    intro acc x h
    simp only [List.foldl_cons] at h
    rcases ih _ x h with h' | h'
    · rcases addToGroup_mem acc _ it x h' with h'' | h''
      · exact Or.inl h''
      · exact Or.inr (by simp [h''])
    · exact Or.inr (by simp [h'])

theorem groupAux_keys_nodup (items : List CartItem) :
    ∀ acc, (acc.map Prod.fst).Nodup →
    ((items.foldl (fun groups item => addToGroup groups item.product.sellerId item) acc).map
      Prod.fst).Nodup := by
  induction items with
  | nil => intro acc h; simpa using h
  | cons it rest ih =>
    intro acc h
    simp only [List.foldl_cons]
    exact ih _ (addToGroup_keys_nodup acc _ it h)

theorem groupAux_keys_mem (items : List CartItem) :
    ∀ acc (sid : String),
    (sid ∈ (items.foldl (fun groups item => addToGroup groups item.product.sellerId item)
        acc).map Prod.fst ↔
      sid ∈ acc.map Prod.fst ∨ sid ∈ items.map (fun it => it.product.sellerId)) := by
  induction items with
  | nil => intro acc sid; simp
  | cons it rest ih =>
    intro acc sid
    simp only [List.foldl_cons, List.map_cons, List.mem_cons]
    rw [ih, mem_addToGroup_keys]
    tauto

theorem groupCartItemsBySeller_nonempty (items : List CartItem) :
    ∀ g ∈ groupCartItemsBySeller items, g.2 ≠ [] :=
  groupAux_nonempty items [] (by simp)

theorem groupCartItemsBySeller_sub (items : List CartItem) :
    ∀ g ∈ groupCartItemsBySeller items, ∀ x ∈ g.2, x ∈ items := by
  intro g hg x hx
  rcases groupAux_mem items [] x ⟨g, hg, hx⟩ with ⟨g0, hg0, _⟩ | h
  · simp at hg0
  · exact h

theorem groupCartItemsBySeller_keys_nodup (items : List CartItem) :
    ((groupCartItemsBySeller items).map Prod.fst).Nodup :=
  groupAux_keys_nodup items [] (by simp)

theorem groupCartItemsBySeller_keys_mem (items : List CartItem) (sid : String) :
    sid ∈ (groupCartItemsBySeller items).map Prod.fst ↔
      sid ∈ items.map (fun it => it.product.sellerId) := by
  have := groupAux_keys_mem items [] sid
  simpa using this

/-- If every cart line passes all four checks (existence, active status,
sufficient live stock, price drift at most `0.01`), the validation loop
collects no errors. -/
theorem validateItems_ok (s : DB) :
    ∀ (items : List CartItem),
    (∀ it ∈ items, ∃ p, lookupA s.products it.productId = some p ∧
      p.status = ProductStatus.active ∧ ¬ p.stock < (it.quantity : Int) ∧
      ¬ 1/100 < ratAbs (p.price - it.product.price)) →
    validateItems s items = ([], []) := by
  intro items
  induction items with
  | nil => intro _; rfl
  | cons it rest ih =>
    intro h
    obtain ⟨p, hp, hact, hstock, hdrift⟩ := h it (by simp)
    have hr := ih (fun x hx => h x (by simp [hx]))
    simp only [validateItems, getProduct, hp, hr]
    rw [if_neg (by simp [hact]), if_neg hstock, if_neg hdrift]

/-- Checkout validation returns `isValid` (with no errors and the store
untouched) for a stored, nonempty, fully-valid cart. -/
theorem validateCartForCheckout_ok (s : DB) (userId : String) (cart : Cart)
    (hc : lookupA s.carts userId = some cart) (hne : cart.items ≠ [])
    (hok : ∀ it ∈ cart.items, ∃ p, lookupA s.products it.productId = some p ∧
      p.status = ProductStatus.active ∧ ¬ p.stock < (it.quantity : Int) ∧
      ¬ 1/100 < ratAbs (p.price - it.product.price)) :
    validateCartForCheckout s userId =
      (s, { isValid := true, errors := [], unavailableItems := [] }) := by
  unfold validateCartForCheckout getCart
  rw [hc]
  have hemp : ¬ (cart.items.isEmpty = true) := by
    simp [List.isEmpty_iff, hne]
  dsimp only
  rw [if_neg hemp, validateItems_ok s cart.items hok]
  rfl

/-- Claim C5 (amended): for a stored, nonempty cart all of whose lines
pass checkout validation, `createOrderFromCart` returns exactly one order
id per distinct seller — the consecutive ids `nextOrderId + k`, one per
group of `groupCartItemsBySeller`, whose key list is duplicate-free and
covers exactly the sellers appearing in the cart.  The order stored for
seller partition `k` carries the buyer, that partition's seller, the
aggregate quantity `Σ quantity` and `totalAmount = Σ snapshot price ×
quantity` over the partition, in status `pending` — but records only the
*first* item's product id, not the full subset of items.  The cart is
cleared (empty items, zero totals) afterwards. -/
theorem createOrderFromCart_one_order_per_seller (s : DB) (userId : String) (cart : Cart)
    (hc : lookupA s.carts userId = some cart)
    (hne : cart.items ≠ [])
    (hfresh : ∀ k, s.nextOrderId ≤ k → lookupA s.orders k = none)
    (hok : ∀ it ∈ cart.items, ∃ p, lookupA s.products it.productId = some p ∧
      p.status = ProductStatus.active ∧ ¬ p.stock < (it.quantity : Int) ∧
      ¬ 1/100 < ratAbs (p.price - it.product.price)) :
    (createOrderFromCart s userId).2 =
      .ok ((List.range (groupCartItemsBySeller cart.items).length).map
        (fun k => s.nextOrderId + k)) ∧
    ((groupCartItemsBySeller cart.items).map Prod.fst).Nodup ∧
    (∀ sid, sid ∈ (groupCartItemsBySeller cart.items).map Prod.fst ↔
      sid ∈ cart.items.map (fun it => it.product.sellerId)) ∧
    (∀ k g, (groupCartItemsBySeller cart.items)[k]? = some g →
      (lookupA (createOrderFromCart s userId).1.orders (s.nextOrderId + k)).map
        Order.buyerId = some userId ∧
      (lookupA (createOrderFromCart s userId).1.orders (s.nextOrderId + k)).map
        Order.sellerId = some g.1 ∧
      (∀ it0, g.2.head? = some it0 →
        (lookupA (createOrderFromCart s userId).1.orders (s.nextOrderId + k)).map
          Order.productId = some it0.productId) ∧
      (lookupA (createOrderFromCart s userId).1.orders (s.nextOrderId + k)).map
        Order.quantity = some (sumQty g.2) ∧
      (lookupA (createOrderFromCart s userId).1.orders (s.nextOrderId + k)).map
        Order.totalAmount = some (sumAmt g.2) ∧
      (lookupA (createOrderFromCart s userId).1.orders (s.nextOrderId + k)).map
        Order.status = some OrderStatus.pending) ∧
    (lookupA (createOrderFromCart s userId).1.carts userId).map Cart.items = some [] ∧
    (lookupA (createOrderFromCart s userId).1.carts userId).map Cart.totalItems = some 0 ∧
    (lookupA (createOrderFromCart s userId).1.carts userId).map Cart.totalAmount = some 0 := by
  have hgc : getCart s userId = (s, cart) := by unfold getCart; rw [hc]
  have hval := validateCartForCheckout_ok s userId cart hc hne hok
  have hloopPre : ∀ g ∈ groupCartItemsBySeller cart.items, g.2 ≠ [] ∧
      ∀ it ∈ g.2, (lookupA s.products it.productId).isSome := by
    intro g hg
    refine ⟨groupCartItemsBySeller_nonempty cart.items g hg, ?_⟩
    intro it hit
    obtain ⟨p, hp, _⟩ := hok it (groupCartItemsBySeller_sub cart.items g hg it hit)
    simp [hp]
  obtain ⟨s', hrun, hcarts', hnid', hdom', hfresh', hmono', hper'⟩ :=
    createOrdersLoop_spec userId (groupCartItemsBySeller cart.items) s hfresh hloopPre
  have hemp : ¬ (cart.items.isEmpty = true) := by
    simp [List.isEmpty_iff, hne]
  set cleared : Cart := { cart with items := [], totalItems := 0, totalAmount := 0 }
    with hcleared
  have hclear : clearCart s' userId =
      ({ s' with carts := setA s'.carts userId cleared }, .ok ()) := by
    unfold clearCart
    rw [hcarts', hc]
  have hmain : createOrderFromCart s userId =
      ({ s' with carts := setA s'.carts userId cleared },
       .ok ((List.range (groupCartItemsBySeller cart.items).length).map
         (fun k => s.nextOrderId + k))) := by
    rw [createOrderFromCart_phases, hgc]
    dsimp only
    rw [hval]
    dsimp only
    unfold checkoutCommitPhase
    rw [if_neg (by simp), if_neg hemp]
    dsimp only
    rw [hrun]
    dsimp only
    rw [hclear]
  rw [hmain]
  refine ⟨rfl, groupCartItemsBySeller_keys_nodup cart.items,
    groupCartItemsBySeller_keys_mem cart.items, ?_, ?_, ?_, ?_⟩
  · intro k g hg
    exact hper' k g hg
  · simp [lookupA_setA_self]
  · simp [lookupA_setA_self]
  · simp [lookupA_setA_self]

/-- A cart for user `U2` holding two distinct products of the same
seller. -/
def cartTwo : Cart :=
  { userId := "U2", items := [itemAlpha, itemBeta], totalItems := 3, totalAmount := 50 }

/-- Store for the single-seller, two-product checkout. -/
def dbCheckout : DB :=
  { products := [("P1", prodAlpha), ("P2", prodBeta)], carts := [("U2", cartTwo)],
    orders := [], tracking := [], nextOrderId := 0, nextRand := 0 }

/-- Claim C5 (counterexample): the seller partition contains the two
distinct products `P1` and `P2`, but the single order created for it
records only the first item's product id `P1` together with the aggregate
quantity 3 — the `Beta`/`P2` line is not carried by the order, whose
schema has a single `productId`. -/
theorem order_lacks_partition_items :
    (createOrderFromCart dbCheckout "U2").2 = .ok [0] ∧
    groupCartItemsBySeller cartTwo.items = [("S1", [itemAlpha, itemBeta])] ∧
    itemBeta.productId = "P2" ∧
    (lookupA (createOrderFromCart dbCheckout "U2").1.orders 0).map Order.productId =
      some "P1" ∧
    (lookupA (createOrderFromCart dbCheckout "U2").1.orders 0).map Order.quantity = some 3 ∧
    ("P2" : String) ≠ "P1" := by
  refine ⟨?_, ?_, rfl, ?_, ?_, by decide⟩ <;>
    simp [createOrderFromCart, checkoutCommitPhase, validateCartForCheckout, validateItems,
      getCart, getProduct, lookupA, setA, dbCheckout, cartTwo, itemAlpha, itemBeta,
      prodAlpha, prodBeta, ratAbs, createOrdersLoop, createSingleOrder, subtractStocks,
      updateStock, addTrackingEntry, clearCart, groupCartItemsBySeller, addToGroup,
      sumQty, sumAmt, generateOrderCode, generateVerificationCode, emptyCart] <;>
    norm_num

/-- A third product owned by a second seller. -/
def prodGamma : Product :=
  { sellerId := "S2", title := "Gamma", price := 30, stock := 4, status := .active }

/-- Cart line: one unit of `Gamma`. -/
def itemGamma : CartItem := { productId := "P3", product := prodGamma, quantity := 1 }

/-- A cart spanning the two sellers `S1` (two products) and `S2` (one). -/
def cartTwoSellers : Cart :=
  { userId := "U3", items := [itemAlpha, itemBeta, itemGamma], totalItems := 4,
    totalAmount := 80 }

/-- Store for the two-seller checkout. -/
def dbTwoSellers : DB :=
  { products := [("P1", prodAlpha), ("P2", prodBeta), ("P3", prodGamma)],
    carts := [("U3", cartTwoSellers)], orders := [], tracking := [],
    nextOrderId := 0, nextRand := 0 }

/-- Witness for `createOrderFromCart_one_order_per_seller`: the
two-seller cart produces exactly the two consecutive order ids — one per
seller — and leaves the cart empty. -/
theorem createOrderFromCart_one_order_per_seller_witness :
    (groupCartItemsBySeller cartTwoSellers.items).length = 2 ∧
    (createOrderFromCart dbTwoSellers "U3").2 =
      .ok ((List.range (groupCartItemsBySeller cartTwoSellers.items).length).map
        (fun k => dbTwoSellers.nextOrderId + k)) ∧
    ((groupCartItemsBySeller cartTwoSellers.items).map Prod.fst).Nodup ∧
    (lookupA (createOrderFromCart dbTwoSellers "U3").1.carts "U3").map Cart.items =
      some [] := by
  have hok : ∀ it ∈ cartTwoSellers.items, ∃ p,
      lookupA dbTwoSellers.products it.productId = some p ∧
      p.status = ProductStatus.active ∧ ¬ p.stock < (it.quantity : Int) ∧
      ¬ 1/100 < ratAbs (p.price - it.product.price) := by
    intro it hit
    simp [cartTwoSellers] at hit
    rcases hit with rfl | rfl | rfl
    · exact ⟨prodAlpha, rfl, rfl, by decide,
        by norm_num [ratAbs, prodAlpha, itemAlpha]⟩
    · exact ⟨prodBeta, rfl, rfl, by decide,
        by norm_num [ratAbs, prodBeta, itemBeta]⟩
    · exact ⟨prodGamma, rfl, rfl, by decide,
        by norm_num [ratAbs, prodGamma, itemGamma]⟩
  have h := createOrderFromCart_one_order_per_seller dbTwoSellers "U3" cartTwoSellers rfl
    (by simp [cartTwoSellers]) (fun k _ => rfl) hok
  refine ⟨by decide, h.1, h.2.1, h.2.2.2.2.1⟩
